import Mathlib

/-!
Verification of the site configuration record of the repository
erwinjanssen.eu, embedded from the file pelicanconf.py.

The module is a flat sequence of assignments; each setting is mirrored by a
top-level definition keeping the source name, and the whole record is
collected into a SiteConfiguration structure. Loading the module is a pure,
deterministic operation, modelled by loadConfig indexed by the load number.
-/

namespace Pelicanconf

def AUTHOR : String := "Erwin Janssen"

def SITENAME : String := "Erwin Janssen"

def SITEURL : String := ""

def PATH : String := "content"

def TIMEZONE : String := "Europe/Amsterdam"

def DEFAULT_LANG : String := "en"

def ARTICLE_URL : String := "post/{slug}.html"

/-- In the source, ARTICLE_SAVE_AS is assigned the value of ARTICLE_URL. -/
def ARTICLE_SAVE_AS : String := ARTICLE_URL

def FEED_ALL_ATOM : Option String := none

def CATEGORY_FEED_ATOM : Option String := none

def TRANSLATION_FEED_ATOM : Option String := none

def AUTHOR_FEED_ATOM : Option String := none

def AUTHOR_FEED_RSS : Option String := none

/-- Blogroll: the ordered tuple of (label, URL) pairs. -/
def LINKS : List (String × String) :=
  [("Pelican", "https://getpelican.com/"),
   ("Python.org", "https://www.python.org/"),
   ("Jinja2", "https://palletsprojects.com/p/jinja/"),
   ("You can modify those links in your config file", "#")]

/-- Social widget: the ordered tuple of (label, URL) pairs. -/
def SOCIAL : List (String × String) :=
  [("GitHub", "https://github.com/ErwinJanssen/"),
   ("Mastodon", "https://mastodon.social/@erwinjanssen"),
   ("LinkedIn", "https://www.linkedin.com/in/ejjanssen/")]

def DEFAULT_PAGINATION : Nat := 10

def PLUGINS : List String :=
  ["pelican.plugins.pandoc_reader"]

def PANDOC_ARGS : List String :=
  ["--base-header-level=2"]

end Pelicanconf

/-- The site configuration record: one field per setting of the module,
in source order. -/
structure SiteConfiguration where
  AUTHOR : String
  SITENAME : String
  SITEURL : String
  PATH : String
  TIMEZONE : String
  DEFAULT_LANG : String
  ARTICLE_URL : String
  ARTICLE_SAVE_AS : String
  FEED_ALL_ATOM : Option String
  CATEGORY_FEED_ATOM : Option String
  TRANSLATION_FEED_ATOM : Option String
  AUTHOR_FEED_ATOM : Option String
  AUTHOR_FEED_RSS : Option String
  LINKS : List (String × String)
  SOCIAL : List (String × String)
  DEFAULT_PAGINATION : Nat
  PLUGINS : List String
  PANDOC_ARGS : List String
deriving DecidableEq

/-- The configuration record defined by pelicanconf.py, field by field. -/
def pelicanconf : SiteConfiguration :=
  ⟨Pelicanconf.AUTHOR, Pelicanconf.SITENAME, Pelicanconf.SITEURL,
   Pelicanconf.PATH, Pelicanconf.TIMEZONE, Pelicanconf.DEFAULT_LANG,
   Pelicanconf.ARTICLE_URL, Pelicanconf.ARTICLE_SAVE_AS,
   Pelicanconf.FEED_ALL_ATOM, Pelicanconf.CATEGORY_FEED_ATOM,
   Pelicanconf.TRANSLATION_FEED_ATOM, Pelicanconf.AUTHOR_FEED_ATOM,
   Pelicanconf.AUTHOR_FEED_RSS, Pelicanconf.LINKS, Pelicanconf.SOCIAL,
   Pelicanconf.DEFAULT_PAGINATION, Pelicanconf.PLUGINS,
   Pelicanconf.PANDOC_ARGS⟩

/-- Loading the module is pure and deterministic: the n-th load yields the
record. The module body only binds literals (and one alias of a prior
binding), so every load produces the same record and has no other effect. -/
def loadConfig (_n : Nat) : SiteConfiguration := pelicanconf

/-- The feed-settings portion of the record: the named optional feed flags
assigned in the feed block of the source (lines 15-19), in source order. -/
def feedSettings (c : SiteConfiguration) : List (String × Option String) :=
  [("FEED_ALL_ATOM", c.FEED_ALL_ATOM),
   ("CATEGORY_FEED_ATOM", c.CATEGORY_FEED_ATOM),
   ("TRANSLATION_FEED_ATOM", c.TRANSLATION_FEED_ATOM),
   ("AUTHOR_FEED_ATOM", c.AUTHOR_FEED_ATOM),
   ("AUTHOR_FEED_RSS", c.AUTHOR_FEED_RSS)]

/-- Modelled from the spec: the second, duplicate instance of the
configuration record described in sections 6 and 9 of the specification is
not present under src/ (only the variant with the LinkedIn entry is). Per
the spec it is field-for-field identical to pelicanconf except that the
extra social-link entry ("LinkedIn") is absent from it. -/
def pelicanconfVariant : SiteConfiguration :=
  ⟨Pelicanconf.AUTHOR, Pelicanconf.SITENAME, Pelicanconf.SITEURL,
   Pelicanconf.PATH, Pelicanconf.TIMEZONE, Pelicanconf.DEFAULT_LANG,
   Pelicanconf.ARTICLE_URL, Pelicanconf.ARTICLE_SAVE_AS,
   Pelicanconf.FEED_ALL_ATOM, Pelicanconf.CATEGORY_FEED_ATOM,
   Pelicanconf.TRANSLATION_FEED_ATOM, Pelicanconf.AUTHOR_FEED_ATOM,
   Pelicanconf.AUTHOR_FEED_RSS, Pelicanconf.LINKS,
   [("GitHub", "https://github.com/ErwinJanssen/"),
    ("Mastodon", "https://mastodon.social/@erwinjanssen")],
   Pelicanconf.DEFAULT_PAGINATION, Pelicanconf.PLUGINS,
   Pelicanconf.PANDOC_ARGS⟩

/-- C1 (counterexample): the claim that the feed-settings portion consists of
exactly four optional feed flags, all disabled, is false on the code: the
feed block of pelicanconf.py assigns five feed settings, so the portion does
not have exactly four entries. -/
theorem feedSettings_not_four :
    ¬ ((feedSettings pelicanconf).length = 4 ∧
       (feedSettings pelicanconf).all (fun p => p.2.isNone) = true) := by
  decide

/-- C1 (amended): the feed-settings portion of the configuration record
consists of exactly five independent optional feed flags (all-content Atom,
category Atom, translation Atom, per-author Atom, per-author RSS), and all
five are explicitly disabled (None). -/
theorem feedSettings_five_all_disabled :
    feedSettings pelicanconf =
      [("FEED_ALL_ATOM", none),
       ("CATEGORY_FEED_ATOM", none),
       ("TRANSLATION_FEED_ATOM", none),
       ("AUTHOR_FEED_ATOM", none),
       ("AUTHOR_FEED_RSS", none)] ∧
    (feedSettings pelicanconf).length = 5 ∧
    (feedSettings pelicanconf).all (fun p => p.2.isNone) = true := by
  refine ⟨rfl, rfl, rfl⟩

/-- C2: the two instances of the configuration record are field-for-field
identical except that exactly one of them (pelicanconf) includes an extra
social-link entry ("LinkedIn") absent from the other (pelicanconfVariant,
modelled from the spec). -/
theorem two_variants_differ_only_in_linkedin :
    pelicanconf.AUTHOR = pelicanconfVariant.AUTHOR ∧
    pelicanconf.SITENAME = pelicanconfVariant.SITENAME ∧
    pelicanconf.SITEURL = pelicanconfVariant.SITEURL ∧
    pelicanconf.PATH = pelicanconfVariant.PATH ∧
    pelicanconf.TIMEZONE = pelicanconfVariant.TIMEZONE ∧
    pelicanconf.DEFAULT_LANG = pelicanconfVariant.DEFAULT_LANG ∧
    pelicanconf.ARTICLE_URL = pelicanconfVariant.ARTICLE_URL ∧
    pelicanconf.ARTICLE_SAVE_AS = pelicanconfVariant.ARTICLE_SAVE_AS ∧
    pelicanconf.FEED_ALL_ATOM = pelicanconfVariant.FEED_ALL_ATOM ∧
    pelicanconf.CATEGORY_FEED_ATOM = pelicanconfVariant.CATEGORY_FEED_ATOM ∧
    pelicanconf.TRANSLATION_FEED_ATOM
      = pelicanconfVariant.TRANSLATION_FEED_ATOM ∧
    pelicanconf.AUTHOR_FEED_ATOM = pelicanconfVariant.AUTHOR_FEED_ATOM ∧
    pelicanconf.AUTHOR_FEED_RSS = pelicanconfVariant.AUTHOR_FEED_RSS ∧
    pelicanconf.LINKS = pelicanconfVariant.LINKS ∧
    pelicanconf.DEFAULT_PAGINATION = pelicanconfVariant.DEFAULT_PAGINATION ∧
    pelicanconf.PLUGINS = pelicanconfVariant.PLUGINS ∧
    pelicanconf.PANDOC_ARGS = pelicanconfVariant.PANDOC_ARGS ∧
    pelicanconf.SOCIAL =
      pelicanconfVariant.SOCIAL
        ++ [("LinkedIn", "https://www.linkedin.com/in/ejjanssen/")] ∧
    pelicanconf.SOCIAL ≠ pelicanconfVariant.SOCIAL := by
  refine ⟨rfl, rfl, rfl, rfl, rfl, rfl, rfl, rfl, rfl, rfl, rfl, rfl, rfl,
    rfl, rfl, rfl, rfl, rfl, ?_⟩
  decide

/-- C3: for every load of the configuration record, the article URL pattern
equals the article save pattern (the save path mirrors the public URL; in the
source the save pattern is assigned the URL pattern itself). -/
theorem article_url_eq_article_save_as :
    ∀ n : Nat, (loadConfig n).ARTICLE_URL = (loadConfig n).ARTICLE_SAVE_AS :=
  fun _ => rfl

/-- C4: the social-links sequence contains the GitHub and Mastodon entries,
has the LinkedIn entry as its third element, and is exactly the
author-supplied sequence in order, with no deduplication or reordering. -/
theorem social_links_content_and_order :
    ("GitHub", "https://github.com/ErwinJanssen/") ∈ pelicanconf.SOCIAL ∧
    ("Mastodon", "https://mastodon.social/@erwinjanssen")
      ∈ pelicanconf.SOCIAL ∧
    pelicanconf.SOCIAL[2]?
      = some ("LinkedIn", "https://www.linkedin.com/in/ejjanssen/") ∧
    pelicanconf.SOCIAL =
      [("GitHub", "https://github.com/ErwinJanssen/"),
       ("Mastodon", "https://mastodon.social/@erwinjanssen"),
       ("LinkedIn", "https://www.linkedin.com/in/ejjanssen/")] := by
  refine ⟨?_, ?_, rfl, rfl⟩ <;> decide

/-- C5: the pagination size equals 10 and in particular is positive. -/
theorem default_pagination_ten_pos :
    pelicanconf.DEFAULT_PAGINATION = 10 ∧
    0 < pelicanconf.DEFAULT_PAGINATION := by
  decide

/-- C6: the enabled-plugins sequence contains exactly one entry, the
Pandoc-reader plugin identifier, and has no duplicate identifiers. -/
theorem plugins_single_pandoc_reader :
    pelicanconf.PLUGINS = ["pelican.plugins.pandoc_reader"] ∧
    pelicanconf.PLUGINS.Nodup := by
  refine ⟨rfl, ?_⟩
  decide

/-- C7: the document-converter argument sequence contains exactly one entry,
the string "--base-header-level=2". -/
theorem pandoc_args_single_entry :
    pelicanconf.PANDOC_ARGS = ["--base-header-level=2"] := rfl

/-- C8: loading the configuration record twice yields field-for-field
identical records: every field of the record obtained by the m-th load equals
the corresponding field of the record obtained by the n-th load. -/
theorem load_idempotent :
    ∀ m n : Nat,
      (loadConfig m).AUTHOR = (loadConfig n).AUTHOR ∧
      (loadConfig m).SITENAME = (loadConfig n).SITENAME ∧
      (loadConfig m).SITEURL = (loadConfig n).SITEURL ∧
      (loadConfig m).PATH = (loadConfig n).PATH ∧
      (loadConfig m).TIMEZONE = (loadConfig n).TIMEZONE ∧
      (loadConfig m).DEFAULT_LANG = (loadConfig n).DEFAULT_LANG ∧
      (loadConfig m).ARTICLE_URL = (loadConfig n).ARTICLE_URL ∧
      (loadConfig m).ARTICLE_SAVE_AS = (loadConfig n).ARTICLE_SAVE_AS ∧
      (loadConfig m).FEED_ALL_ATOM = (loadConfig n).FEED_ALL_ATOM ∧
      (loadConfig m).CATEGORY_FEED_ATOM = (loadConfig n).CATEGORY_FEED_ATOM ∧
      (loadConfig m).TRANSLATION_FEED_ATOM
        = (loadConfig n).TRANSLATION_FEED_ATOM ∧
      (loadConfig m).AUTHOR_FEED_ATOM = (loadConfig n).AUTHOR_FEED_ATOM ∧
      (loadConfig m).AUTHOR_FEED_RSS = (loadConfig n).AUTHOR_FEED_RSS ∧
      (loadConfig m).LINKS = (loadConfig n).LINKS ∧
      (loadConfig m).SOCIAL = (loadConfig n).SOCIAL ∧
      (loadConfig m).DEFAULT_PAGINATION = (loadConfig n).DEFAULT_PAGINATION ∧
      (loadConfig m).PLUGINS = (loadConfig n).PLUGINS ∧
      (loadConfig m).PANDOC_ARGS = (loadConfig n).PANDOC_ARGS :=
  fun _ _ => ⟨rfl, rfl, rfl, rfl, rfl, rfl, rfl, rfl, rfl, rfl, rfl, rfl,
    rfl, rfl, rfl, rfl, rfl, rfl⟩

/-- C9: the configuration record defines a fifth feed setting,
AUTHOR_FEED_RSS, in addition to the four Atom feed flags, and all five feed
settings are disabled (None). -/
theorem five_feed_settings_all_none :
    (feedSettings pelicanconf).length = 5 ∧
    pelicanconf.FEED_ALL_ATOM = none ∧
    pelicanconf.CATEGORY_FEED_ATOM = none ∧
    pelicanconf.TRANSLATION_FEED_ATOM = none ∧
    pelicanconf.AUTHOR_FEED_ATOM = none ∧
    pelicanconf.AUTHOR_FEED_RSS = none := by
  refine ⟨rfl, rfl, rfl, rfl, rfl, rfl⟩

/-- C10: the links sequence is exactly the four listed pairs in order, with
the leftover default-template placeholder entry pointing at "#" as its fourth
link. -/
theorem links_exact_with_placeholder :
    pelicanconf.LINKS =
      [("Pelican", "https://getpelican.com/"),
       ("Python.org", "https://www.python.org/"),
       ("Jinja2", "https://palletsprojects.com/p/jinja/"),
       ("You can modify those links in your config file", "#")] ∧
    pelicanconf.LINKS[3]?
      = some ("You can modify those links in your config file", "#") := by
  refine ⟨rfl, rfl⟩
